import Mathlib

/-!
Verification of the `semi-rs` HSMS / SECS-II library against its
natural-language specification.

The development shallowly embeds the relevant parts of the repository:

* `src/semi_e37/src/lib.rs` — the library error type (`SemiE37.Error`);
* `src/semi_e37/src/single.rs` — the HSMS-SS `Client`: the procedure
  callbacks installed by `Client::new` and the `connect` / `disconnect` /
  `linktest` procedures.  The generic-layer client that `single.rs`
  delegates to lives in `src/semi_e37/src/generic.rs`, which is not part
  of the surveyed sources; its operations are therefore treated as
  oracles (their results are parameters of the embedded functions) and
  the calls `single.rs` makes into it are recorded in an event trace.
* `src/semi_e5/src/messages/s3.rs`, `s10.rs` — the stream-3 / stream-10
  message registries (the arguments of the `message_headeronly!` /
  `message_data!` macro invocations, transcribed in source order);
* `src/semi_e5/src/items.rs` — the `Item` conversions (`From` /
  `TryFrom`) for single-format items, `MaterialFormat`, the unit type,
  heterogeneous tuples and `VecList`.
-/

namespace SemiE37

/-- Modelled from the spec: `std::io::ErrorKind`, the error-kind payload of
`std::io::Error` used throughout `single.rs` (`std` is outside the
repository).  Only the kinds `single.rs` mentions are distinguished; all
others are collected by `other`. -/
inductive IoErrKind where
  | notConnected
  | timedOut
  | other (code : Nat)
deriving DecidableEq, Repr

/-- Modelled from the spec: `std::io::Error`, carrying its kind. -/
structure IoErr where
  kind : IoErrKind
deriving DecidableEq, Repr

/-- The `Error` enum of `src/semi_e37/src/lib.rs` (lines 82-145).
`IoError` wraps a `std::io::Error`; `MessageRejected` carries two `u8`
codes and `ProcedureRejected` one `u8` code, modelled as `Fin 256`. -/
inductive Error where
  | IoError (e : IoErr)
  | InvalidResponse
  | TimedOut
  | NotConnected
  | AlreadyConnected
  | Disconnected
  | NotSelected
  | MessageRejected (psType : Fin 256) (reason : Fin 256)
  | ProcedureRejected (reason : Fin 256)
  | TransactionOpen
deriving DecidableEq, Repr

/-- Index of the category an `Error` value belongs to, in the order the
variants are declared in `lib.rs`. -/
def Error.category : Error → Fin 10
  | .IoError _             => 0
  | .InvalidResponse       => 1
  | .TimedOut              => 2
  | .NotConnected          => 3
  | .AlreadyConnected      => 4
  | .Disconnected          => 5
  | .NotSelected           => 6
  | .MessageRejected _ _   => 7
  | .ProcedureRejected _   => 8
  | .TransactionOpen       => 9

/-- The two single-byte codes carried by a `MessageRejected` error, when
there are such. -/
def Error.messageRejectedCodes : Error → Option (Fin 256 × Fin 256)
  | .MessageRejected psType reason => some (psType, reason)
  | _ => none

/-- The single-byte reason code carried by a `ProcedureRejected` error,
when there is one. -/
def Error.procedureRejectedCode : Error → Option (Fin 256)
  | .ProcedureRejected reason => some reason
  | _ => none

/-- The `ConnectionMode` enum (re-exported by `single.rs` from the
`primitive` module; its two variants `Passive` and `Active` are fixed by
their uses in `single.rs` and by the spec §3). -/
inductive ConnectionMode where
  | Passive
  | Active
deriving DecidableEq, Repr

/-- The `SelectionState` values `single.rs` discriminates on
(`generic::SelectionState`; the two variants used are `NotSelected` and
`Selected`). -/
inductive SelectionState where
  | NotSelected
  | Selected
deriving DecidableEq, Repr

/-- Modelled from the spec: `generic::SelectStatus`
(spec §3: status ∈ Ok, AlreadyActive, NotReady, ExhaustedConnections,
Failed; `generic.rs` is not among the surveyed sources). -/
inductive SelectStatus where
  | Ok
  | AlreadyActive
  | NotReady
  | ExhaustedConnections
  | Failed
deriving DecidableEq, Repr

/-- Modelled from the spec: `generic::DeselectStatus`
(spec §3: status ∈ Ok, NotEstablished, Busy). -/
inductive DeselectStatus where
  | Ok
  | NotEstablished
  | Busy
deriving DecidableEq, Repr

/-- The select callback installed by `Client::new`
(`single.rs` lines 158-194): the passive client accepts the procedure
exactly when no selection has happened yet and the session id is 0xFFFF;
the active client never accepts it. -/
def selectCallback (mode : ConnectionMode) (sessionId selectionCount : Nat) :
    Option SelectStatus :=
  match mode with
  | .Passive =>
    if selectionCount = 0 && sessionId = 0xFFFF then
      some SelectStatus.Ok
    else
      none
  | .Active => none

/-- The deselect callback installed by `Client::new`
(`single.rs` lines 199-204): always `None`. -/
def deselectCallback (_sessionId _selectionCount : Nat) :
    Option DeselectStatus :=
  none

/-- The separate callback installed by `Client::new`
(`single.rs` lines 210-219): always `None`. -/
def separateCallback (_sessionId _selectionCount : Nat) : Option Bool :=
  none

/-- Modelled from the spec: the generic-layer dispatcher's handling of a
received SeparateRequest (spec §4.2.2, `generic.rs` not surveyed):
`Some` means accept and tear down the selection, `None` means treat the
message as a communications failure and disconnect.  Either way the
engine tears down; `disconnects` records whether the callback result
leads to a teardown of the connection or selection. -/
def separateResultDisconnects (result : Option Bool) : Bool :=
  match result with
  | some _ => true
  | none => true

/-- The `MessageID` struct (re-exported from `generic`); its two fields
are fixed by the construction sites in `single.rs`. -/
structure MessageID where
  session : Nat
  system : Nat
deriving DecidableEq, Repr

/-- The connection information returned by `generic::Client::connect` and
passed through by `single::Client::connect`: a peer socket address and a
receiver handle for the inbound data queue, both treated as opaque
identifiers. -/
structure Connection where
  addr : Nat
  receiver : Nat
deriving DecidableEq, Repr

/-- Calls `single.rs` makes into the generic client, recorded as a
trace. -/
inductive Event where
  | genericConnect
  | select (id : MessageID)
  | separate (id : MessageID)
  | genericDisconnect
  | genericLinktest (system : Nat)
deriving DecidableEq, Repr

/-- `Client::connect` (`single.rs` lines 272-329).  The generic client's
operations are oracles: `connectResult` is what
`generic_client.connect(entity)` returns, and `selectResult` is what
`generic_client.select(...).join().unwrap()` returns when that call is
made (only the active branch makes it).  The function returns the
procedure's result together with the trace of generic-client calls.
The passive branch holds only the `TODO` comment and returns the
connection immediately. -/
def Client.connect (mode : ConnectionMode)
    (connectResult : Except IoErr Connection)
    (selectResult : Except IoErr Unit) :
    Except IoErr Connection × List Event :=
  match connectResult with
  | .error e => (.error e, [.genericConnect])
  | .ok connection =>
    match mode with
    | .Passive =>
      (.ok connection, [.genericConnect])
    | .Active =>
      match selectResult with
      | .error e =>
        (.error e, [.genericConnect, .select ⟨0xFFFF, 0⟩, .genericDisconnect])
      | .ok _ =>
        (.ok connection, [.genericConnect, .select ⟨0xFFFF, 0⟩])

/-- `Client::disconnect` (`single.rs` lines 356-373).  `separateResult`
is what `generic_client.separate(...).join().unwrap()` returns when that
call is made (only when the selection state is `Selected`; the `?`
operator propagates its error before the generic disconnect);
`disconnectResult` is what `generic_client.disconnect()` returns. -/
def Client.disconnect (selectionState : SelectionState)
    (separateResult : Except IoErr Unit)
    (disconnectResult : Except IoErr Unit) :
    Except IoErr Unit × List Event :=
  match selectionState with
  | .Selected =>
    match separateResult with
    | .error e => (.error e, [.separate ⟨0xFFFF, 0⟩])
    | .ok _ => (disconnectResult, [.separate ⟨0xFFFF, 0⟩, .genericDisconnect])
  | .NotSelected =>
    (disconnectResult, [.genericDisconnect])

/-- `Client::linktest` (`single.rs` lines 485-508).  In the
`NotSelected` state the spawned thread immediately yields
`Err(Error::from(ErrorKind::NotConnected))` without touching the generic
client; in the `Selected` state the call is delegated to
`generic_client.linktest(system)`, whose result is the oracle
`genericResult`. -/
def Client.linktest (selectionState : SelectionState)
    (genericResult : Except IoErr Unit) (system : Nat) :
    Except IoErr Unit × List Event :=
  match selectionState with
  | .NotSelected => (.error ⟨IoErrKind.notConnected⟩, [])
  | .Selected => (genericResult, [.genericLinktest system])

end SemiE37

namespace SemiE5

/-- A registered SECS-II message type: the arguments of one
`message_headeronly!` / `message_data!` macro invocation in
`src/semi_e5/src/messages/` — the struct name, the reply-expected flag,
the stream and the function number — plus whether the message is
header-only. -/
structure MsgDef where
  name : String
  w : Bool
  stream : Nat
  function : Nat
  headerOnly : Bool
deriving DecidableEq, Repr

/-- The stream-3 registry: every macro invocation of
`src/semi_e5/src/messages/s3.rs`, in source order. -/
def s3Messages : List MsgDef := [
  ⟨"Abort", false, 3, 0, true⟩,
  ⟨"MaterialStatusRequest", true, 3, 1, true⟩,
  ⟨"MaterialStatusData", false, 3, 2, false⟩,
  ⟨"TimeToCompletionRequest", true, 3, 3, true⟩,
  ⟨"TimeToCompletionData", false, 3, 4, false⟩,
  ⟨"MaterialFoundSend", true, 3, 5, false⟩,
  ⟨"MaterialFoundAcknowledge", false, 3, 6, false⟩,
  ⟨"MaterialLostSend", true, 3, 7, false⟩,
  ⟨"MaterialLostAcknowledge", false, 3, 8, false⟩,
  ⟨"MaterialIDEquateSend", true, 3, 9, false⟩,
  ⟨"MaterialIDEquateAcknowledge", false, 3, 10, false⟩,
  ⟨"MaterialIDRequest", true, 3, 11, false⟩,
  ⟨"MaterialIDRequestAcknowledge", false, 3, 12, false⟩,
  ⟨"MaterialIDSend", true, 3, 13, false⟩,
  ⟨"MaterialIDAcknowledge", false, 3, 14, false⟩,
  ⟨"MultiBlockInquire", true, 3, 15, false⟩,
  ⟨"MultiBlockGrant", false, 3, 16, false⟩,
  ⟨"CarrierActionRequest", true, 3, 17, false⟩,
  ⟨"CarrierActionAcknowledge", false, 3, 18, false⟩,
  ⟨"CancelAllCarrierOutRequest", true, 3, 19, true⟩,
  ⟨"CancelAllCarrierOutAcknowledge", false, 3, 18, false⟩,
  ⟨"PortGroupDefinition", true, 3, 19, false⟩,
  ⟨"PortGroupDefinitionAcknowledge", false, 3, 22, false⟩,
  ⟨"PortGroupActionRequest", true, 3, 23, false⟩,
  ⟨"PortGroupActionAcknowledge", false, 3, 24, false⟩,
  ⟨"PortActionRequest", true, 3, 25, false⟩,
  ⟨"PortActionAcknowledge", false, 3, 26, false⟩,
  ⟨"ChangeAccess", true, 3, 27, false⟩,
  ⟨"ChangeAccessAcknowledge", false, 3, 28, false⟩,
  ⟨"CarrierTagReadRequest", true, 3, 29, false⟩,
  ⟨"CarrierTagReadData", false, 3, 30, false⟩,
  ⟨"CarrierTagWriteDataRequest", true, 3, 31, false⟩,
  ⟨"CarrierTagWriteDataAcknowledge", false, 3, 32, false⟩,
  ⟨"CancelAllPodOutRequest", true, 3, 33, true⟩,
  ⟨"CancelAllPodOutAcknowledge", false, 3, 34, false⟩,
  ⟨"ReticleTransferJobRequest", true, 3, 35, false⟩,
  ⟨"ReticleTransferJobAcknowledge", false, 3, 36, false⟩]

/-- The stream-10 registry: every macro invocation of
`src/semi_e5/src/messages/s10.rs`, in source order. -/
def s10Messages : List MsgDef := [
  ⟨"Abort", false, 10, 0, true⟩,
  ⟨"TerminalRequest", true, 10, 1, false⟩,
  ⟨"TerminalAcknowledge", false, 10, 2, false⟩,
  ⟨"TerminalDisplaySingle", true, 10, 3, false⟩,
  ⟨"TerminalDisplaySingleAcknowledge", false, 10, 4, false⟩]

/-- `std::ascii::Char`: a 7-bit ASCII character. -/
abbrev AsciiChar := Fin 128

/-- A byte (`u8`). -/
abbrev Byte := Fin 256

/-- The `Item` enum of the `semi_e5` crate root (the crate root is not
among the surveyed sources; the variants are fixed by their uses in
`src/semi_e5/src/items.rs`: `List` holds items, `Ascii` holds
`std::ascii::Char`s, the format variants hold vectors of their numeric
type).  Only the variants the verified conversions touch are carried;
they suffice to distinguish every case those conversions split on. -/
inductive Item where
  | list (items : List Item)
  | ascii (chars : List AsciiChar)
  | bin (bytes : List Byte)
  | bool (vals : List Bool)
  | u1 (vals : List Byte)
  | u2 (vals : List (Fin 65536))
  | i2 (vals : List Int)

/-- Modelled from the spec: the `Error` enum of the `semi_e5` crate root
(not among the surveyed sources); `items.rs` imports it and uses only
its `WrongFormat` variant (spec §6: `decode(bytes) → message |
FormatError`). -/
inductive ItemError where
  | WrongFormat
deriving DecidableEq, Repr

/-- `TryFrom<Item> for ()` (`items.rs` lines 132-147): succeeds exactly
on the empty `List`. -/
def tryFromUnit : Item → Except ItemError Unit
  | .list l => if l.isEmpty then .ok () else .error .WrongFormat
  | _ => .error .WrongFormat

/-- `From<()> for Item` (`items.rs` lines 150-154). -/
def fromUnit (_empty : Unit) : Item := .list []

/-- The loop body shared by `TryFrom<Item> for VecList<A>`
(`items.rs` lines 104-115): converts the elements left to right,
propagating the first failure. -/
def tryFromElems {A : Type} (tryA : Item → Except ItemError A) :
    List Item → Except ItemError (List A)
  | [] => .ok []
  | it :: rest =>
    match tryA it with
    | .error e => .error e
    | .ok a =>
      match tryFromElems tryA rest with
      | .error e => .error e
      | .ok tail => .ok (a :: tail)

/-- `TryFrom<Item> for VecList<A>` (`items.rs` lines 101-116). -/
def tryFromVecList {A : Type} (tryA : Item → Except ItemError A) :
    Item → Except ItemError (List A)
  | .list l => tryFromElems tryA l
  | _ => .error .WrongFormat

/-- `From<VecList<A>> for Item` (`items.rs` lines 119-127). -/
def fromVecList {A : Type} (fromA : A → Item) (v : List A) : Item :=
  .list (v.map fromA)

/-- Rust `Vec` indexing `list[i]` as used by the tuple conversions: in
bounds it yields the element and continues; out of bounds it panics,
modelled as the `none` outcome of the whole conversion. -/
def idxThen {α : Type} (l : List Item) (i : Nat)
    (k : Item → Option (Except ItemError α)) : Option (Except ItemError α) :=
  match l.get? i with
  | none => none
  | some it => k it

/-- The `?` operator applied to one component conversion inside a tuple
conversion: an `Err` returns early from the whole conversion, an `Ok`
continues. -/
def convThen {A α : Type} (tryA : Item → Except ItemError A) (it : Item)
    (k : A → Option (Except ItemError α)) : Option (Except ItemError α) :=
  match tryA it with
  | .error e => some (.error e)
  | .ok a => k a

/-- `TryFrom<Item> for (A, B)` (`items.rs` lines 159-180): length check
`== 2`, then indexing and converting `list[0]`, `list[1]` in order. -/
def tryFromTuple2 {A B : Type}
    (tryA : Item → Except ItemError A) (tryB : Item → Except ItemError B) :
    Item → Option (Except ItemError (A × B))
  | .list l =>
    if l.length = 2 then
      idxThen l 0 fun i0 => convThen tryA i0 fun a =>
      idxThen l 1 fun i1 => convThen tryB i1 fun b =>
      some (.ok (a, b))
    else some (.error .WrongFormat)
  | _ => some (.error .WrongFormat)

/-- `From<(A, B)> for Item` (`items.rs` lines 183-193). -/
def fromTuple2 {A B : Type} (fromA : A → Item) (fromB : B → Item) :
    A × B → Item
  | (a, b) => .list [fromA a, fromB b]

/-- `TryFrom<Item> for (A, B, C)` (`items.rs` lines 196-219): length
check `== 3`, then indexing and converting `list[0]`..`list[2]`. -/
def tryFromTuple3 {A B C : Type}
    (tryA : Item → Except ItemError A) (tryB : Item → Except ItemError B)
    (tryC : Item → Except ItemError C) :
    Item → Option (Except ItemError (A × B × C))
  | .list l =>
    if l.length = 3 then
      idxThen l 0 fun i0 => convThen tryA i0 fun a =>
      idxThen l 1 fun i1 => convThen tryB i1 fun b =>
      idxThen l 2 fun i2 => convThen tryC i2 fun c =>
      some (.ok (a, b, c))
    else some (.error .WrongFormat)
  | _ => some (.error .WrongFormat)

/-- `From<(A, B, C)> for Item` (`items.rs` lines 222-234). -/
def fromTuple3 {A B C : Type} (fromA : A → Item) (fromB : B → Item)
    (fromC : C → Item) : A × B × C → Item
  | (a, b, c) => .list [fromA a, fromB b, fromC c]

/-- `TryFrom<Item> for (A, B, C, D)` (`items.rs` lines 237-262): length
check `== 4`, then indexing and converting `list[0]`..`list[3]`. -/
def tryFromTuple4 {A B C D : Type}
    (tryA : Item → Except ItemError A) (tryB : Item → Except ItemError B)
    (tryC : Item → Except ItemError C) (tryD : Item → Except ItemError D) :
    Item → Option (Except ItemError (A × B × C × D))
  | .list l =>
    if l.length = 4 then
      idxThen l 0 fun i0 => convThen tryA i0 fun a =>
      idxThen l 1 fun i1 => convThen tryB i1 fun b =>
      idxThen l 2 fun i2 => convThen tryC i2 fun c =>
      idxThen l 3 fun i3 => convThen tryD i3 fun d =>
      some (.ok (a, b, c, d))
    else some (.error .WrongFormat)
  | _ => some (.error .WrongFormat)

/-- `From<(A, B, C, D)> for Item` (`items.rs` lines 265-279). -/
def fromTuple4 {A B C D : Type} (fromA : A → Item) (fromB : B → Item)
    (fromC : C → Item) (fromD : D → Item) : A × B × C × D → Item
  | (a, b, c, d) => .list [fromA a, fromB b, fromC c, fromD d]

/-- `TryFrom<Item> for (A, B, C, D, E)` (`items.rs` lines 282-309):
length check `== 5`, then indexing and converting `list[0]`..`list[4]`. -/
def tryFromTuple5 {A B C D E : Type}
    (tryA : Item → Except ItemError A) (tryB : Item → Except ItemError B)
    (tryC : Item → Except ItemError C) (tryD : Item → Except ItemError D)
    (tryE : Item → Except ItemError E) :
    Item → Option (Except ItemError (A × B × C × D × E))
  | .list l =>
    if l.length = 5 then
      idxThen l 0 fun i0 => convThen tryA i0 fun a =>
      idxThen l 1 fun i1 => convThen tryB i1 fun b =>
      idxThen l 2 fun i2 => convThen tryC i2 fun c =>
      idxThen l 3 fun i3 => convThen tryD i3 fun d =>
      idxThen l 4 fun i4 => convThen tryE i4 fun e =>
      some (.ok (a, b, c, d, e))
    else some (.error .WrongFormat)
  | _ => some (.error .WrongFormat)

/-- `From<(A, B, C, D, E)> for Item` (`items.rs` lines 312-328). -/
def fromTuple5 {A B C D E : Type} (fromA : A → Item) (fromB : B → Item)
    (fromC : C → Item) (fromD : D → Item) (fromE : E → Item) :
    A × B × C × D × E → Item
  | (a, b, c, d, e) => .list [fromA a, fromB b, fromC c, fromD d, fromE e]

/-- `TryFrom<Item> for (A, B, C, D, E, F)` (`items.rs` lines 331-360):
length check `== 6`, then indexing and converting `list[0]`..`list[5]`. -/
def tryFromTuple6 {A B C D E F : Type}
    (tryA : Item → Except ItemError A) (tryB : Item → Except ItemError B)
    (tryC : Item → Except ItemError C) (tryD : Item → Except ItemError D)
    (tryE : Item → Except ItemError E) (tryF : Item → Except ItemError F) :
    Item → Option (Except ItemError (A × B × C × D × E × F))
  | .list l =>
    if l.length = 6 then
      idxThen l 0 fun i0 => convThen tryA i0 fun a =>
      idxThen l 1 fun i1 => convThen tryB i1 fun b =>
      idxThen l 2 fun i2 => convThen tryC i2 fun c =>
      idxThen l 3 fun i3 => convThen tryD i3 fun d =>
      idxThen l 4 fun i4 => convThen tryE i4 fun e =>
      idxThen l 5 fun i5 => convThen tryF i5 fun f =>
      some (.ok (a, b, c, d, e, f))
    else some (.error .WrongFormat)
  | _ => some (.error .WrongFormat)

/-- `From<(A, B, C, D, E, F)> for Item` (`items.rs` lines 363-381). -/
def fromTuple6 {A B C D E F : Type} (fromA : A → Item) (fromB : B → Item)
    (fromC : C → Item) (fromD : D → Item) (fromE : E → Item)
    (fromF : F → Item) : A × B × C × D × E × F → Item
  | (a, b, c, d, e, f) =>
    .list [fromA a, fromB b, fromC c, fromD d, fromE e, fromF f]

/-- `TryFrom<Item> for (A, B, C, D, E, F, G)` (`items.rs` lines
384-415): the source checks `list.len() == 6` yet indexes
`list[0]`..`list[6]`, so on a six-element list the seventh indexing
panics, and a seven-element list fails the length check. -/
def tryFromTuple7 {A B C D E F G : Type}
    (tryA : Item → Except ItemError A) (tryB : Item → Except ItemError B)
    (tryC : Item → Except ItemError C) (tryD : Item → Except ItemError D)
    (tryE : Item → Except ItemError E) (tryF : Item → Except ItemError F)
    (tryG : Item → Except ItemError G) :
    Item → Option (Except ItemError (A × B × C × D × E × F × G))
  | .list l =>
    if l.length = 6 then
      idxThen l 0 fun i0 => convThen tryA i0 fun a =>
      idxThen l 1 fun i1 => convThen tryB i1 fun b =>
      idxThen l 2 fun i2 => convThen tryC i2 fun c =>
      idxThen l 3 fun i3 => convThen tryD i3 fun d =>
      idxThen l 4 fun i4 => convThen tryE i4 fun e =>
      idxThen l 5 fun i5 => convThen tryF i5 fun f =>
      idxThen l 6 fun i6 => convThen tryG i6 fun g =>
      some (.ok (a, b, c, d, e, f, g))
    else some (.error .WrongFormat)
  | _ => some (.error .WrongFormat)

/-- `From<(A, B, C, D, E, F, G)> for Item` (`items.rs` lines 418-438). -/
def fromTuple7 {A B C D E F G : Type} (fromA : A → Item) (fromB : B → Item)
    (fromC : C → Item) (fromD : D → Item) (fromE : E → Item)
    (fromF : F → Item) (fromG : G → Item) : A × B × C × D × E × F × G → Item
  | (a, b, c, d, e, f, g) =>
    .list [fromA a, fromB b, fromC c, fromD d, fromE e, fromF f, fromG g]

/-- The `Quantity` item (`items.rs` line 3605): `pub struct
Quantity(pub u8)`. -/
structure Quantity where
  val : Byte
deriving DecidableEq, Repr

/-- `From<Quantity> for Item` from `singleformat!{Quantity, U1}`
(`items.rs` lines 464-468 instantiated at line 3606): a one-element `U1`
vector. -/
def fromQuantity (q : Quantity) : Item := .u1 [q.val]

/-- `TryFrom<Item> for Quantity` from `singleformat!{Quantity, U1}`
(`items.rs` lines 469-484 instantiated at line 3606): a `U1` vector of
length exactly one yields its element, everything else is
`WrongFormat`. -/
def tryFromQuantity : Item → Except ItemError Quantity
  | .u1 [v] => .ok ⟨v⟩
  | _ => .error .WrongFormat

/-- The `MaterialFormat` item (`items.rs` lines 2972-2988): either an
ASCII unit string or one of fourteen enumerated codes. -/
inductive MaterialFormat where
  | Unit (chars : List AsciiChar)
  | Wafers
  | Cassettes
  | Dies
  | Boats
  | Ingots
  | LeadFrames
  | Lots
  | Magazines
  | Packages
  | Plates
  | Tubes
  | WaferFrames
  | Carriers
  | Substrates
deriving DecidableEq, Repr

/-- `From<MaterialFormat> for Item` (`items.rs` lines 2989-3009). -/
def fromMaterialFormat : MaterialFormat → Item
  | .Unit vec => .ascii vec
  | .Wafers => .bin [1]
  | .Cassettes => .bin [2]
  | .Dies => .bin [3]
  | .Boats => .bin [4]
  | .Ingots => .bin [5]
  | .LeadFrames => .bin [6]
  | .Lots => .bin [7]
  | .Magazines => .bin [8]
  | .Packages => .bin [9]
  | .Plates => .bin [10]
  | .Tubes => .bin [11]
  | .WaferFrames => .bin [12]
  | .Carriers => .bin [13]
  | .Substrates => .bin [14]

/-- `TryFrom<Item> for MaterialFormat` (`items.rs` lines 3010-3042): any
`Ascii` vector yields a unit string; a one-element `Bin` vector is
decoded by its byte value 1-14; everything else is `WrongFormat`. -/
def tryFromMaterialFormat : Item → Except ItemError MaterialFormat
  | .ascii vec => .ok (.Unit vec)
  | .bin vec =>
    match vec with
    | [v] =>
      match v.val with
      | 1 => .ok .Wafers
      | 2 => .ok .Cassettes
      | 3 => .ok .Dies
      | 4 => .ok .Boats
      | 5 => .ok .Ingots
      | 6 => .ok .LeadFrames
      | 7 => .ok .Lots
      | 8 => .ok .Magazines
      | 9 => .ok .Packages
      | 10 => .ok .Plates
      | 11 => .ok .Tubes
      | 12 => .ok .WaferFrames
      | 13 => .ok .Carriers
      | 14 => .ok .Substrates
      | _ => .error .WrongFormat
    | _ => .error .WrongFormat
  | _ => .error .WrongFormat

end SemiE5

open SemiE37 SemiE5

/-- Helper: converting a mapped list element-by-element succeeds and
recovers the original list whenever the element conversion inverts the
element embedding. -/
theorem tryFromElems_map {A : Type} (fromA : A → Item)
    (tryA : Item → Except ItemError A)
    (hA : ∀ a, tryA (fromA a) = .ok a) :
    ∀ v : List A, tryFromElems tryA (v.map fromA) = .ok v := by
  intro v
  induction v with
  | nil => rfl
  | cons x xs ih =>
    simp only [List.map, tryFromElems, hA x, ih]

/-- Claim C1 (code evaluation): for a passive-mode `Client`, when the
generic connect succeeds, `Client::connect` returns the connection
immediately — the only generic-client call in the trace is the connect
itself; no wait for a select, no disconnect, and no `TimedOut` error
occur, whatever the state of the remote entity.  This contradicts the
claimed (and documented, `single.rs` lines 240-245) wait of up to T7
followed by a disconnect and `TimedOut`; the passive branch holds only a
`TODO` comment (`single.rs` line 293). -/
theorem connect_passive_returns_immediately
    (connection : Connection) (selectResult : Except IoErr Unit) :
    Client.connect .Passive (.ok connection) selectResult =
      (.ok connection, [.genericConnect]) :=
  rfl

/-- Claim C4: for an active-mode `Client`, when the generic connect
succeeds, `Client::connect` runs the select procedure with session id
0xFFFF; if the select fails, it calls the generic disconnect and returns
the select's error instead of the connection, and if the select
succeeds, it returns the connection. -/
theorem connect_active_runs_select
    (connection : Connection) (e : IoErr) :
    Client.connect .Active (.ok connection) (.error e) =
      (.error e, [.genericConnect, .select ⟨0xFFFF, 0⟩, .genericDisconnect]) ∧
    Client.connect .Active (.ok connection) (.ok ()) =
      (.ok connection, [.genericConnect, .select ⟨0xFFFF, 0⟩]) :=
  ⟨rfl, rfl⟩

/-- Claim C5: `Client::disconnect` in the `Selected` state first runs
the separate procedure with session id 0xFFFF and blocks on its
completion (a separate failure even returns before the generic
disconnect) and only then closes the connection; in the `NotSelected`
state it closes the connection without any separate call. -/
theorem disconnect_separates_when_selected :
    (∀ (e : IoErr) (disconnectResult : Except IoErr Unit),
      Client.disconnect .Selected (.error e) disconnectResult =
        (.error e, [.separate ⟨0xFFFF, 0⟩])) ∧
    (∀ disconnectResult : Except IoErr Unit,
      Client.disconnect .Selected (.ok ()) disconnectResult =
        (disconnectResult, [.separate ⟨0xFFFF, 0⟩, .genericDisconnect])) ∧
    (∀ (separateResult disconnectResult : Except IoErr Unit),
      Client.disconnect .NotSelected separateResult disconnectResult =
        (disconnectResult, [.genericDisconnect])) :=
  ⟨fun _ _ => rfl, fun _ => rfl, fun _ _ => rfl⟩

/-- Claim C6: `Client::linktest` in the `NotSelected` state yields the
`NotConnected` error without any call into the generic client (so no
bytes are written); in the `Selected` state it delegates to the generic
linktest procedure. -/
theorem linktest_restricted_to_selected
    (genericResult : Except IoErr Unit) (system : Nat) :
    Client.linktest .NotSelected genericResult system =
      (.error ⟨.notConnected⟩, []) ∧
    Client.linktest .Selected genericResult system =
      (genericResult, [.genericLinktest system]) :=
  ⟨rfl, rfl⟩

/-- Claim C2: the HSMS-SS procedure callbacks installed by
`Client::new`.  The passive select callback returns
`Some(SelectStatus::Ok)` exactly when the selection count is 0 and the
session id is 0xFFFF and never returns any other `Some`; the active
select callback and the deselect callback return `None` on every input;
the separate callback returns `None` on every input — the result the
generic dispatcher treats as a communications failure — so its result
always leads to a disconnect, regardless of the session id. -/
theorem hsms_ss_callbacks :
    (∀ sessionId selectionCount : Nat,
      selectCallback .Passive sessionId selectionCount =
          some SelectStatus.Ok ↔
        selectionCount = 0 ∧ sessionId = 0xFFFF) ∧
    (∀ sessionId selectionCount : Nat,
      selectCallback .Passive sessionId selectionCount =
          some SelectStatus.Ok ∨
        selectCallback .Passive sessionId selectionCount = none) ∧
    (∀ sessionId selectionCount : Nat,
      selectCallback .Active sessionId selectionCount = none) ∧
    (∀ sessionId selectionCount : Nat,
      deselectCallback sessionId selectionCount = none) ∧
    (∀ sessionId selectionCount : Nat,
      separateCallback sessionId selectionCount = none ∧
      separateResultDisconnects
        (separateCallback sessionId selectionCount) = true) := by
  refine ⟨?_, ?_, fun _ _ => rfl, fun _ _ => rfl, fun _ _ => ⟨rfl, rfl⟩⟩
  · intro sessionId selectionCount
    by_cases h1 : selectionCount = 0 <;> by_cases h2 : sessionId = 0xFFFF <;>
      simp [selectCallback, h1, h2]
  · intro sessionId selectionCount
    by_cases h1 : selectionCount = 0 <;> by_cases h2 : sessionId = 0xFFFF <;>
      simp [selectCallback, h1, h2]

/-- Claim C7: every value of the library error type falls into one of
the ten claimed categories (in declaration order), every one of the ten
categories is realized, and the `MessageRejected` category carries its
two single-byte codes and the `ProcedureRejected` category its one
single-byte code recoverably. -/
theorem error_exposes_ten_categories :
    (∀ err : Error,
      (∃ e, err = .IoError e) ∨ err = .InvalidResponse ∨ err = .TimedOut ∨
      err = .NotConnected ∨ err = .AlreadyConnected ∨ err = .Disconnected ∨
      err = .NotSelected ∨ (∃ a b, err = .MessageRejected a b) ∨
      (∃ r, err = .ProcedureRejected r) ∨ err = .TransactionOpen) ∧
    Function.Surjective Error.category ∧
    (∀ psType reason : Fin 256,
      (Error.MessageRejected psType reason).messageRejectedCodes =
        some (psType, reason)) ∧
    (∀ reason : Fin 256,
      (Error.ProcedureRejected reason).procedureRejectedCode = some reason) := by
  refine ⟨?_, ?_, fun _ _ => rfl, fun _ => rfl⟩
  · intro err
    cases err with
    | IoError e => exact Or.inl ⟨e, rfl⟩
    | InvalidResponse => exact Or.inr (Or.inl rfl)
    | TimedOut => exact Or.inr (Or.inr (Or.inl rfl))
    | NotConnected => exact Or.inr (Or.inr (Or.inr (Or.inl rfl)))
    | AlreadyConnected =>
      exact Or.inr (Or.inr (Or.inr (Or.inr (Or.inl rfl))))
    | Disconnected =>
      exact Or.inr (Or.inr (Or.inr (Or.inr (Or.inr (Or.inl rfl)))))
    | NotSelected =>
      exact Or.inr (Or.inr (Or.inr (Or.inr (Or.inr (Or.inr (Or.inl rfl))))))
    | MessageRejected a b =>
      exact Or.inr (Or.inr (Or.inr (Or.inr (Or.inr (Or.inr (Or.inr
        (Or.inl ⟨a, b, rfl⟩)))))))
    | ProcedureRejected r =>
      exact Or.inr (Or.inr (Or.inr (Or.inr (Or.inr (Or.inr (Or.inr
        (Or.inr (Or.inl ⟨r, rfl⟩))))))))
    | TransactionOpen =>
      exact Or.inr (Or.inr (Or.inr (Or.inr (Or.inr (Or.inr (Or.inr
        (Or.inr (Or.inr rfl))))))))
  · intro i
    match i with
    | 0 => exact ⟨.IoError ⟨.notConnected⟩, rfl⟩
    | 1 => exact ⟨.InvalidResponse, rfl⟩
    | 2 => exact ⟨.TimedOut, rfl⟩
    | 3 => exact ⟨.NotConnected, rfl⟩
    | 4 => exact ⟨.AlreadyConnected, rfl⟩
    | 5 => exact ⟨.Disconnected, rfl⟩
    | 6 => exact ⟨.NotSelected, rfl⟩
    | 7 => exact ⟨.MessageRejected 0 0, rfl⟩
    | 8 => exact ⟨.ProcedureRejected 0, rfl⟩
    | 9 => exact ⟨.TransactionOpen, rfl⟩

/-- Claim C3 (code evaluation): the primary/response numbering of the
stream-3 registry is broken — the message named
`CancelAllCarrierOutAcknowledge` (documented as S3F20, the response
paired with the S3F19 request) is registered with function number 18,
the message named `PortGroupDefinition` (documented as S3F21) is
registered with function number 19, and no stream-3 message at all is
registered with function number 20 or 21; function numbers 18 and 19
are each registered twice. -/
theorem s3_pairing_violated :
    s3Messages.filter
        (fun m => m.name == "CancelAllCarrierOutAcknowledge") =
      [⟨"CancelAllCarrierOutAcknowledge", false, 3, 18, false⟩] ∧
    s3Messages.filter (fun m => m.name == "PortGroupDefinition") =
      [⟨"PortGroupDefinition", true, 3, 19, false⟩] ∧
    s3Messages.filter (fun m => m.function == 20 || m.function == 21) =
      [] ∧
    (s3Messages.filter (fun m => m.function == 18)).length = 2 ∧
    (s3Messages.filter (fun m => m.function == 19)).length = 2 := by
  refine ⟨rfl, rfl, rfl, rfl, rfl⟩

/-- Claim C8: in each of the stream-3 and stream-10 registries, the one
message type registered with function number 0 is the header-only
`Abort` message, and its reply-expected flag is `false`. -/
theorem function_zero_is_abort :
    s3Messages.filter (fun m => m.function == 0) =
      [⟨"Abort", false, 3, 0, true⟩] ∧
    s10Messages.filter (fun m => m.function == 0) =
      [⟨"Abort", false, 10, 0, true⟩] :=
  ⟨rfl, rfl⟩

/-- Claim C9 (code evaluation): the seven-element-tuple conversion
`TryFrom<Item> for (A, B, C, D, E, F, G)` is not total and does not
succeed on seven-element lists.  Instantiating every component at the
unit type (whose conversion accepts the empty list): on a six-element
list of empty lists the conversion panics with an out-of-bounds index
(modelled as `none`), and on a seven-element list of empty lists it
returns `Err(WrongFormat)` instead of succeeding. -/
theorem tuple7_conversion_panics :
    tryFromTuple7 tryFromUnit tryFromUnit tryFromUnit tryFromUnit
        tryFromUnit tryFromUnit tryFromUnit
        (Item.list (List.replicate 6 (Item.list []))) = none ∧
    tryFromTuple7 tryFromUnit tryFromUnit tryFromUnit tryFromUnit
        tryFromUnit tryFromUnit tryFromUnit
        (Item.list (List.replicate 7 (Item.list []))) =
      some (.error .WrongFormat) :=
  ⟨rfl, rfl⟩

/-- Claim C10: the `Item` conversions round-trip.  For the single-format
item `Quantity`, the format-enumerated item `MaterialFormat`, the unit
type for the empty list, `VecList`s of a convertible element type, and
heterogeneous tuples of 2 to 6 components each of which converts back to
itself, converting the value into an `Item` via `From` and back via
`TryFrom` succeeds and yields the value again. -/
theorem item_conversions_roundtrip :
    (∀ q : Quantity, tryFromQuantity (fromQuantity q) = .ok q) ∧
    (∀ m : MaterialFormat,
      tryFromMaterialFormat (fromMaterialFormat m) = .ok m) ∧
    (tryFromUnit (fromUnit ()) = .ok ()) ∧
    (∀ (A : Type) (fromA : A → Item) (tryA : Item → Except ItemError A),
      (∀ a, tryA (fromA a) = .ok a) →
      ∀ v : List A, tryFromVecList tryA (fromVecList fromA v) = .ok v) ∧
    (∀ (A B : Type)
      (fromA : A → Item) (tryA : Item → Except ItemError A)
      (fromB : B → Item) (tryB : Item → Except ItemError B),
      (∀ a, tryA (fromA a) = .ok a) → (∀ b, tryB (fromB b) = .ok b) →
      ∀ p : A × B,
        tryFromTuple2 tryA tryB (fromTuple2 fromA fromB p) =
          some (.ok p)) ∧
    (∀ (A B C : Type)
      (fromA : A → Item) (tryA : Item → Except ItemError A)
      (fromB : B → Item) (tryB : Item → Except ItemError B)
      (fromC : C → Item) (tryC : Item → Except ItemError C),
      (∀ a, tryA (fromA a) = .ok a) → (∀ b, tryB (fromB b) = .ok b) →
      (∀ c, tryC (fromC c) = .ok c) →
      ∀ p : A × B × C,
        tryFromTuple3 tryA tryB tryC (fromTuple3 fromA fromB fromC p) =
          some (.ok p)) ∧
    (∀ (A B C D : Type)
      (fromA : A → Item) (tryA : Item → Except ItemError A)
      (fromB : B → Item) (tryB : Item → Except ItemError B)
      (fromC : C → Item) (tryC : Item → Except ItemError C)
      (fromD : D → Item) (tryD : Item → Except ItemError D),
      (∀ a, tryA (fromA a) = .ok a) → (∀ b, tryB (fromB b) = .ok b) →
      (∀ c, tryC (fromC c) = .ok c) → (∀ d, tryD (fromD d) = .ok d) →
      ∀ p : A × B × C × D,
        tryFromTuple4 tryA tryB tryC tryD
            (fromTuple4 fromA fromB fromC fromD p) =
          some (.ok p)) ∧
    (∀ (A B C D E : Type)
      (fromA : A → Item) (tryA : Item → Except ItemError A)
      (fromB : B → Item) (tryB : Item → Except ItemError B)
      (fromC : C → Item) (tryC : Item → Except ItemError C)
      (fromD : D → Item) (tryD : Item → Except ItemError D)
      (fromE : E → Item) (tryE : Item → Except ItemError E),
      (∀ a, tryA (fromA a) = .ok a) → (∀ b, tryB (fromB b) = .ok b) →
      (∀ c, tryC (fromC c) = .ok c) → (∀ d, tryD (fromD d) = .ok d) →
      (∀ e, tryE (fromE e) = .ok e) →
      ∀ p : A × B × C × D × E,
        tryFromTuple5 tryA tryB tryC tryD tryE
            (fromTuple5 fromA fromB fromC fromD fromE p) =
          some (.ok p)) ∧
    (∀ (A B C D E F : Type)
      (fromA : A → Item) (tryA : Item → Except ItemError A)
      (fromB : B → Item) (tryB : Item → Except ItemError B)
      (fromC : C → Item) (tryC : Item → Except ItemError C)
      (fromD : D → Item) (tryD : Item → Except ItemError D)
      (fromE : E → Item) (tryE : Item → Except ItemError E)
      (fromF : F → Item) (tryF : Item → Except ItemError F),
      (∀ a, tryA (fromA a) = .ok a) → (∀ b, tryB (fromB b) = .ok b) →
      (∀ c, tryC (fromC c) = .ok c) → (∀ d, tryD (fromD d) = .ok d) →
      (∀ e, tryE (fromE e) = .ok e) → (∀ f, tryF (fromF f) = .ok f) →
      ∀ p : A × B × C × D × E × F,
        tryFromTuple6 tryA tryB tryC tryD tryE tryF
            (fromTuple6 fromA fromB fromC fromD fromE fromF p) =
          some (.ok p)) := by
  refine ⟨fun q => rfl, ?_, rfl, ?_, ?_, ?_, ?_, ?_, ?_⟩
  · intro m
    cases m <;> rfl
  · intro A fromA tryA hA v
    exact tryFromElems_map fromA tryA hA v
  · intro A B fromA tryA fromB tryB hA hB p
    obtain ⟨a, b⟩ := p
    show (convThen tryA (fromA a) fun x =>
      convThen tryB (fromB b) fun y =>
        some (Except.ok (x, y))) = some (.ok (a, b))
    simp only [convThen, hA, hB]
  · intro A B C fromA tryA fromB tryB fromC tryC hA hB hC p
    obtain ⟨a, b, c⟩ := p
    show (convThen tryA (fromA a) fun x =>
      convThen tryB (fromB b) fun y =>
      convThen tryC (fromC c) fun z =>
        some (Except.ok (x, y, z))) = some (.ok (a, b, c))
    simp only [convThen, hA, hB, hC]
  · intro A B C D fromA tryA fromB tryB fromC tryC fromD tryD hA hB hC hD p
    obtain ⟨a, b, c, d⟩ := p
    show (convThen tryA (fromA a) fun x =>
      convThen tryB (fromB b) fun y =>
      convThen tryC (fromC c) fun z =>
      convThen tryD (fromD d) fun w =>
        some (Except.ok (x, y, z, w))) = some (.ok (a, b, c, d))
    simp only [convThen, hA, hB, hC, hD]
  · intro A B C D E fromA tryA fromB tryB fromC tryC fromD tryD fromE tryE
      hA hB hC hD hE p
    obtain ⟨a, b, c, d, e⟩ := p
    show (convThen tryA (fromA a) fun x =>
      convThen tryB (fromB b) fun y =>
      convThen tryC (fromC c) fun z =>
      convThen tryD (fromD d) fun w =>
      convThen tryE (fromE e) fun u =>
        some (Except.ok (x, y, z, w, u))) = some (.ok (a, b, c, d, e))
    simp only [convThen, hA, hB, hC, hD, hE]
  · intro A B C D E F fromA tryA fromB tryB fromC tryC fromD tryD fromE tryE
      fromF tryF hA hB hC hD hE hF p
    obtain ⟨a, b, c, d, e, f⟩ := p
    show (convThen tryA (fromA a) fun x =>
      convThen tryB (fromB b) fun y =>
      convThen tryC (fromC c) fun z =>
      convThen tryD (fromD d) fun w =>
      convThen tryE (fromE e) fun u =>
      convThen tryF (fromF f) fun t =>
        some (Except.ok (x, y, z, w, u, t))) = some (.ok (a, b, c, d, e, f))
    simp only [convThen, hA, hB, hC, hD, hE, hF]

/-- Witness for claim C10: the round-trip theorem instantiated at
concrete values — a `VecList` of `Quantity` values and tuples of 2 to 6
components drawn from `Quantity`, `MaterialFormat` and the unit type,
each component hypothesis discharged by an explicit conversion proof. -/
theorem item_conversions_roundtrip_witness :
    tryFromVecList tryFromQuantity
        (fromVecList fromQuantity [⟨3⟩, ⟨7⟩]) = .ok [⟨3⟩, ⟨7⟩] ∧
    tryFromTuple2 tryFromQuantity tryFromMaterialFormat
        (fromTuple2 fromQuantity fromMaterialFormat (⟨5⟩, .Wafers)) =
      some (.ok (⟨5⟩, .Wafers)) ∧
    tryFromTuple3 tryFromQuantity tryFromUnit tryFromMaterialFormat
        (fromTuple3 fromQuantity fromUnit fromMaterialFormat
          (⟨5⟩, (), .Lots)) =
      some (.ok (⟨5⟩, (), .Lots)) ∧
    tryFromTuple4 tryFromQuantity tryFromUnit tryFromMaterialFormat
        tryFromQuantity
        (fromTuple4 fromQuantity fromUnit fromMaterialFormat fromQuantity
          (⟨1⟩, (), .Unit [65], ⟨2⟩)) =
      some (.ok (⟨1⟩, (), .Unit [65], ⟨2⟩)) ∧
    tryFromTuple5 tryFromQuantity tryFromUnit tryFromMaterialFormat
        tryFromQuantity tryFromUnit
        (fromTuple5 fromQuantity fromUnit fromMaterialFormat fromQuantity
          fromUnit (⟨1⟩, (), .Dies, ⟨2⟩, ())) =
      some (.ok (⟨1⟩, (), .Dies, ⟨2⟩, ())) ∧
    tryFromTuple6 tryFromQuantity tryFromUnit tryFromMaterialFormat
        tryFromQuantity tryFromUnit tryFromMaterialFormat
        (fromTuple6 fromQuantity fromUnit fromMaterialFormat fromQuantity
          fromUnit fromMaterialFormat (⟨1⟩, (), .Boats, ⟨2⟩, (), .Tubes)) =
      some (.ok (⟨1⟩, (), .Boats, ⟨2⟩, (), .Tubes)) :=
  ⟨item_conversions_roundtrip.2.2.2.1 Quantity fromQuantity tryFromQuantity
      (fun q => rfl) [⟨3⟩, ⟨7⟩],
   item_conversions_roundtrip.2.2.2.2.1 Quantity MaterialFormat
      fromQuantity tryFromQuantity fromMaterialFormat tryFromMaterialFormat
      (fun q => rfl) (fun m => by cases m <;> rfl) (⟨5⟩, .Wafers),
   item_conversions_roundtrip.2.2.2.2.2.1 Quantity Unit MaterialFormat
      fromQuantity tryFromQuantity fromUnit tryFromUnit
      fromMaterialFormat tryFromMaterialFormat
      (fun q => rfl) (fun u => rfl) (fun m => by cases m <;> rfl)
      (⟨5⟩, (), .Lots),
   item_conversions_roundtrip.2.2.2.2.2.2.1 Quantity Unit MaterialFormat
      Quantity fromQuantity tryFromQuantity fromUnit tryFromUnit
      fromMaterialFormat tryFromMaterialFormat fromQuantity tryFromQuantity
      (fun q => rfl) (fun u => rfl) (fun m => by cases m <;> rfl)
      (fun q => rfl) (⟨1⟩, (), .Unit [65], ⟨2⟩),
   item_conversions_roundtrip.2.2.2.2.2.2.2.1 Quantity Unit MaterialFormat
      Quantity Unit fromQuantity tryFromQuantity fromUnit tryFromUnit
      fromMaterialFormat tryFromMaterialFormat fromQuantity tryFromQuantity
      fromUnit tryFromUnit
      (fun q => rfl) (fun u => rfl) (fun m => by cases m <;> rfl)
      (fun q => rfl) (fun u => rfl) (⟨1⟩, (), .Dies, ⟨2⟩, ()),
   item_conversions_roundtrip.2.2.2.2.2.2.2.2 Quantity Unit MaterialFormat
      Quantity Unit MaterialFormat fromQuantity tryFromQuantity
      fromUnit tryFromUnit fromMaterialFormat tryFromMaterialFormat
      fromQuantity tryFromQuantity fromUnit tryFromUnit
      fromMaterialFormat tryFromMaterialFormat
      (fun q => rfl) (fun u => rfl) (fun m => by cases m <;> rfl)
      (fun q => rfl) (fun u => rfl) (fun m => by cases m <;> rfl)
      (⟨1⟩, (), .Boats, ⟨2⟩, (), .Tubes)⟩
